import Mathlib

/-!
Shallow embedding of the Mesos default (task-group) executor,
`src/launcher/default_executor.cpp`, together with theorems checking the
natural-language specification against it.

Modelling conventions:
* UUIDs, task ids, container ids, and connections are `Nat`; `UUID::random()`
  is modelled as drawing from a deterministic counter `nextUuid` in the state.
* `LinkedHashMap` is an insertion-ordered association list `List (Nat × α)`.
* Every `CHECK`/`LOG(FATAL)` abort site is identified by a `CheckId`; a handler
  returns a `StepResult` carrying the optional abort cause, the state reached,
  and the externally visible actions (HTTP calls, timers, status updates)
  performed before returning or aborting.
* `Owned<Container>` pointer mutation is modelled by updating the container
  entry in the `containers` map at its key.
-/

namespace Mesos

/-- Task states used by the default executor. -/
inductive TaskState
  | TASK_RUNNING
  | TASK_KILLING
  | TASK_FINISHED
  | TASK_FAILED
  | TASK_KILLED
deriving DecidableEq

/-- Status-update reasons used by the check adapter. -/
inductive Reason
  | REASON_TASK_CHECK_STATUS_UPDATED
  | REASON_TASK_HEALTH_CHECK_STATUS_UPDATED
deriving DecidableEq

/-- Check types from `CheckInfo::Type`. -/
inductive CheckType
  | COMMAND
  | HTTP
  | TCP
  | UNKNOWN
deriving DecidableEq

/-- A `CheckStatusInfo` message: its type plus opaque payload. -/
structure CheckStatusInfo where
  ty : CheckType
  data : Nat
deriving DecidableEq

/-- A `KillPolicy` message; `gracePeriodNanos = none` models
`!has_grace_period()`. -/
structure KillPolicy where
  gracePeriodNanos : Option Nat
deriving DecidableEq

/-- The parts of `TaskInfo` the executor reads. -/
structure TaskInfo where
  taskId : Nat
  killPolicy : Option KillPolicy
  check : Option CheckType
  healthCheck : Bool
deriving DecidableEq

/-- The parts of `TaskStatus` the executor writes. -/
structure TaskStatus where
  taskId : Nat
  state : TaskState
  uuid : Nat
  timestamp : Nat
  executorId : Nat
  reason : Option Reason
  message : Option String
  healthy : Option Bool
  checkStatus : Option CheckStatusInfo
  containerId : Option Nat
deriving DecidableEq

/-- An opaque checker / health-checker handle: only `pause`/`resume` state is
observable. -/
structure Checker where
  paused : Bool
deriving DecidableEq

/-- The `Container` record of `DefaultExecutor` (one per launched task). -/
structure Container where
  containerId : Nat
  taskInfo : TaskInfo
  taskGroup : List TaskInfo
  lastTaskStatus : Option TaskStatus
  checker : Option Checker
  healthChecker : Option Checker
  waiting : Option Nat
  acknowledged : Bool
  killing : Bool
  killingTaskGroup : Bool
deriving DecidableEq

/-- The parts of `FrameworkInfo` the executor reads: the
`TASK_KILLING_STATE` capability. -/
structure FrameworkInfo where
  taskKillingCapability : Bool
deriving DecidableEq

/-- The executor's connection state machine. -/
inductive ConnState
  | DISCONNECTED
  | CONNECTED
  | SUBSCRIBED
deriving DecidableEq

/-- The mutable state of `DefaultExecutor`. -/
structure ExecState where
  state : ConnState
  launched : Bool
  shuttingDown : Bool
  unhealthy : Bool
  frameworkInfo : Option FrameworkInfo
  executorContainerId : Option Nat
  executorId : Nat
  connectionId : Option Nat
  nextUuid : Nat
  unacknowledgedUpdates : List (Nat × TaskStatus)
  containers : List (Nat × Container)
deriving DecidableEq

/-- The payload of a `SUBSCRIBE` call built by `doReliableRegistration`. -/
structure SubscribeCall where
  unackUpdates : List (Nat × TaskStatus)
  unackTasks : List TaskInfo
deriving DecidableEq

/-- Externally visible effects of a handler. -/
inductive Action
  | connectForLaunch
  | launchNested (containerId taskId : Nat)
  | symlinkTask (taskId containerId : Nat)
  | connectWaitGroup (taskIds : List Nat)
  | connectForWait (taskId : Nat)
  | delayThenRetry (secs taskId : Nat)
  | delayThenWait (secs taskId : Nat)
  | sendWait (containerId : Nat)
  | killNested (containerId signal : Nat)
  | scheduleEscalated (containerId taskId graceNanos : Nat)
  | forwardUpdate (status : TaskStatus)
  | sendSubscribe (call : SubscribeCall)
  | delaySubscribe (secs : Nat)
  | shutdownNow
deriving DecidableEq

/-- Identifies the `CHECK` / `LOG(FATAL)` site that aborted a handler. -/
inductive CheckId
  | waitedSubscribed
  | waitedContains
  | waitedWaitingSome
  | waitStatusShape
  | waitedErase
  | statusContains
  | statusUnknownCheckType
  | forwardContains
  | killSubscribed
  | killContains
  | killNotKilling
  | killConnectionId
  | killFrameworkInfo
  | killTaskSubscribed
  | launchGroupSubscribed
  | launchSubscribed
  | launchExecutorContainerId
  | launchLaunched
  | launchSizes
  | retrySubscribed
  | retryConnectionId
  | retryContains
  | waitSubscribed
  | waitLaunched
  | waitConnectionId
  | waitContains
  | waitWaitingNone
  | checkLastStatus
  | healthLastStatus
deriving DecidableEq

/-- Result of one handler invocation: abort cause (if a `CHECK` fired), the
state reached, and the actions performed before returning or aborting. -/
structure StepResult where
  err : Option CheckId
  state : ExecState
  actions : List Action
deriving DecidableEq

/-- Insertion-ordered map lookup (stout `LinkedHashMap::get`/`at`). -/
def lhmGet (m : List (Nat × α)) (k : Nat) : Option α :=
  (m.find? (fun p => p.1 == k)).map Prod.snd

/-- Insertion-ordered map membership (stout `LinkedHashMap::contains`). -/
def lhmContains (m : List (Nat × α)) (k : Nat) : Bool :=
  (lhmGet m k).isSome

/-- Insertion-ordered map insert/overwrite (`map[key] = value`): overwriting
keeps the original position, fresh keys are appended. -/
def lhmPut (m : List (Nat × α)) (k : Nat) (v : α) : List (Nat × α) :=
  if lhmContains m k then m.map (fun p => if p.1 == k then (k, v) else p)
  else m ++ [(k, v)]

/-- Update the value at a key in place (models mutation through the
`Owned<Container>` pointer held in the map). -/
def lhmUpdate (m : List (Nat × α)) (k : Nat) (f : α → α) : List (Nat × α) :=
  m.map (fun p => if p.1 == k then (p.1, f p.2) else p)

/-- Insertion-ordered map erase. -/
def lhmErase (m : List (Nat × α)) (k : Nat) : List (Nat × α) :=
  m.filter (fun p => p.1 != k)

/-- Keys of an insertion-ordered map, in order. -/
def lhmKeys (m : List (Nat × α)) : List Nat :=
  m.map Prod.fst

/-- Modelled from the spec: the platform's `WIFEXITED` macro (missing from
src/, it is a POSIX platform macro): the low seven bits of the wait status
are zero. Wait statuses are modelled as the nonnegative `int` values the
agent reports. -/
def wifexited (s : Nat) : Bool :=
  s % 128 == 0

/-- Modelled from the spec: the platform's `WEXITSTATUS` macro: bits 8-15 of
the wait status. -/
def wexitstatus (s : Nat) : Nat :=
  (s / 256) % 256

/-- Modelled from the spec: the platform's `WIFSIGNALED` macro: the low seven
bits are a signal number (neither 0 = exited nor 0x7f = stopped). -/
def wifsignaled (s : Nat) : Bool :=
  s % 128 != 0 && s % 128 != 127

/-- Modelled from the spec: the platform's `WTERMSIG` macro: the low seven
bits of the wait status. -/
def wtermsig (s : Nat) : Nat :=
  s % 128

/-- Modelled from the spec: `WSUCCEEDED` from `common/status_utils.hpp`
(missing from src/): the platform's exit-code predicate, true when the
process exited normally with code 0. -/
def wsucceeded (s : Nat) : Bool :=
  wifexited s && wexitstatus s == 0

/-- Modelled from the spec: `WSTRINGIFY` from `common/status_utils.hpp`
(missing from src/): the platform's human-readable rendering of a wait
status. -/
def wstringify (s : Nat) : String :=
  if wifexited s then "exited with status " ++ toString (wexitstatus s)
  else if wifsignaled s then "terminated with signal " ++ toString (wtermsig s)
  else "wait status " ++ toString s

/-- `SIGTERM` signal number. -/
def SIGTERM : Nat := 15

/-- `SIGKILL` signal number. -/
def SIGKILL : Nat := 9

/-- `DefaultExecutor::disconnected`: enter `DISCONNECTED`, clear
`connectionId`, disconnect and null every `waiting` connection, pause every
present checker and health checker. -/
def disconnected (s : ExecState) : ExecState :=
  { s with
    state := ConnState.DISCONNECTED
    connectionId := none
    containers := s.containers.map (fun p =>
      (p.1,
       { p.2 with
         waiting := none
         checker := p.2.checker.map (fun c => { c with paused := true })
         healthChecker := p.2.healthChecker.map (fun c => { c with paused := true }) })) }

/-- The `SUBSCRIBE` payload built by `doReliableRegistration`: all
unacknowledged updates, and the `taskInfo` of every container whose
`acknowledged` flag is still false. -/
def buildSubscribe (s : ExecState) : SubscribeCall :=
  { unackUpdates := s.unacknowledgedUpdates
    unackTasks := (s.containers.filter (fun p => !p.2.acknowledged)).map (fun p => p.2.taskInfo) }

/-- `DefaultExecutor::doReliableRegistration`: do nothing in `SUBSCRIBED` or
`DISCONNECTED`; otherwise send a `SUBSCRIBE` call and re-arm the 1 s timer. -/
def doReliableRegistration (s : ExecState) : List Action :=
  if s.state = ConnState.SUBSCRIBED || s.state = ConnState.DISCONNECTED then []
  else [Action.sendSubscribe (buildSubscribe s), Action.delaySubscribe 1]

/-- `DefaultExecutor::createTaskStatus` (the private helper): fresh UUID
(drawn from the counter), timestamp, executor id, source, optional reason and
message, the placeholder `check_status` when the task declares a check
(aborting on an `UNKNOWN` check type), and the container id. Aborts if the
task is no longer in `containers`. -/
def createTaskStatus (s : ExecState) (now taskId : Nat) (taskState : TaskState)
    (reason : Option Reason) (message : Option String) :
    Except CheckId (TaskStatus × ExecState) :=
  match lhmGet s.containers taskId with
  | none => Except.error CheckId.statusContains
  | some container =>
    if container.taskInfo.check = some CheckType.UNKNOWN then
      Except.error CheckId.statusUnknownCheckType
    else
      Except.ok
        ({ taskId := taskId
           state := taskState
           uuid := s.nextUuid
           timestamp := now
           executorId := s.executorId
           reason := reason
           message := message
           healthy := none
           checkStatus := container.taskInfo.check.map (fun t => { ty := t, data := 0 })
           containerId := some container.containerId },
         { s with nextUuid := s.nextUuid + 1 })

/-- `DefaultExecutor::forward`: record the update in
`unacknowledgedUpdates` keyed by its UUID, overwrite the container's
`lastTaskStatus` (aborting if the task is not in `containers`), and send it. -/
def forward (s : ExecState) (status : TaskStatus) : StepResult :=
  let s1 := { s with unacknowledgedUpdates := lhmPut s.unacknowledgedUpdates status.uuid status }
  if lhmContains s1.containers status.taskId then
    { err := none
      state := { s1 with containers := (lhmUpdate s1.containers status.taskId
                  (fun c => { c with lastTaskStatus := some status })) }
      actions := [Action.forwardUpdate status] }
  else { err := some CheckId.forwardContains, state := s1, actions := [] }

/-- Grace-period resolution in `DefaultExecutor::kill`: the `KILL` event's
policy when it carries a grace period, else the task's own `kill_policy`
grace period, else 3 s (in nanoseconds). -/
def computeGracePeriodNanos (killPolicy : Option KillPolicy) (taskInfo : TaskInfo) : Nat :=
  match killPolicy.bind (fun kp => kp.gracePeriodNanos),
        (taskInfo.killPolicy.bind (fun kp => kp.gracePeriodNanos)) with
  | some g, _ => g
  | none, some g => g
  | none, none => 3000000000

/-- `DefaultExecutor::kill(container, killPolicy)`: assert subscribed and not
already killing; mark `killing`, pause and drop both checkers, compute the
grace period, schedule the SIGKILL escalation, forward `TASK_KILLING` when
the framework has the capability, and send `KILL_NESTED_CONTAINER` with
SIGTERM. `taskId` is the container's key in `containers`. -/
def kill (s : ExecState) (taskId : Nat) (killPolicy : Option KillPolicy) (now : Nat) :
    StepResult :=
  if s.state ≠ ConnState.SUBSCRIBED then
    { err := some CheckId.killSubscribed, state := s, actions := [] }
  else
    match lhmGet s.containers taskId with
    | none => { err := some CheckId.killContains, state := s, actions := [] }
    | some c =>
      if c.killing then { err := some CheckId.killNotKilling, state := s, actions := [] }
      else
        let c1 := { c with killing := true, checker := none, healthChecker := none }
        let s1 := { s with containers := lhmUpdate s.containers taskId (fun _ => c1) }
        let grace := computeGracePeriodNanos killPolicy c1.taskInfo
        match s1.connectionId with
        | none => { err := some CheckId.killConnectionId, state := s1, actions := [] }
        | some _ =>
          let acts := [Action.scheduleEscalated c1.containerId c1.taskInfo.taskId grace]
          match s1.frameworkInfo with
          | none => { err := some CheckId.killFrameworkInfo, state := s1, actions := acts }
          | some fi =>
            if fi.taskKillingCapability then
              match createTaskStatus s1 now c1.taskInfo.taskId TaskState.TASK_KILLING none none with
              | Except.error e => { err := some e, state := s1, actions := acts }
              | Except.ok (status, s2) =>
                let r := forward s2 status
                if r.err.isSome then
                  { err := r.err, state := r.state, actions := acts ++ r.actions }
                else
                  { err := none
                    state := r.state
                    actions := acts ++ r.actions ++ [Action.killNested c1.containerId SIGTERM] }
            else
              { err := none
                state := s1
                actions := acts ++ [Action.killNested c1.containerId SIGTERM] }

/-- `DefaultExecutor::killTask`: ignore the kill while shutting down; assert
subscribed; ignore kills for unknown or already-killing tasks; otherwise run
`kill`. -/
def killTask (s : ExecState) (taskId : Nat) (killPolicy : Option KillPolicy) (now : Nat) :
    StepResult :=
  if s.shuttingDown then { err := none, state := s, actions := [] }
  else if s.state ≠ ConnState.SUBSCRIBED then
    { err := some CheckId.killTaskSubscribed, state := s, actions := [] }
  else
    match lhmGet s.containers taskId with
    | none => { err := none, state := s, actions := [] }
    | some c =>
      if c.killing then { err := none, state := s, actions := [] }
      else kill s taskId killPolicy now

/-- The fate-sharing loop at the end of `DefaultExecutor::waited`: for every
task of the group other than the triggering one that is still active, set
`killingTaskGroup` and invoke `kill` on it. -/
def killTaskGroupLoop (tasks : List TaskInfo) (triggerId now : Nat) (s : ExecState)
    (acc : List Action) : StepResult :=
  match tasks with
  | [] => { err := none, state := s, actions := acc }
  | t :: rest =>
    if t.taskId == triggerId || !lhmContains s.containers t.taskId then
      killTaskGroupLoop rest triggerId now s acc
    else
      let s1 := { s with containers := (lhmUpdate s.containers t.taskId
                  (fun c => { c with killingTaskGroup := true })) }
      let r := kill s1 t.taskId none now
      if r.err.isSome then { err := r.err, state := r.state, actions := acc ++ r.actions }
      else killTaskGroupLoop rest triggerId now r.state (acc ++ r.actions)

/-- `DefaultExecutor::retry`: fenced by `connectionId`; assert subscribed;
initiate a fresh connection to the agent for the wait. -/
def retry (s : ExecState) (cid taskId : Nat) : StepResult :=
  if s.connectionId ≠ some cid then { err := none, state := s, actions := [] }
  else if s.state ≠ ConnState.SUBSCRIBED then
    { err := some CheckId.retrySubscribed, state := s, actions := [] }
  else { err := none, state := s, actions := [Action.connectForWait taskId] }

/-- The `retry_` lambda in `DefaultExecutor::waited`: disconnect and null the
stored wait connection, then call `retry` for the container's task. -/
def waitedRetry (s : ExecState) (cid taskId : Nat) (c : Container) : StepResult :=
  let s1 := { s with containers := (lhmUpdate s.containers taskId
              (fun c0 => { c0 with waiting := none })) }
  retry s1 cid c.taskInfo.taskId

/-- The 200-OK branch of `DefaultExecutor::waited`: pause and drop both
checkers, assert the wait-status shape, translate the exit status to a
terminal task state and message, forward the terminal update (with
`healthy = false` when the executor is `unhealthy`), erase the container,
shut down when no containers remain, and otherwise apply fate sharing for
`TASK_FAILED`/`TASK_KILLED` unless shutting down or the group is already
being killed. `container` is the record as read at the top of `waited`. The
`none` branch mirrors the `status.isNone()` branch of the source; it is
unreachable from `waited` because of the getter collapse in
`exitStatusOption`. -/
def waitedTerminal (s : ExecState) (container : Container) (taskId : Nat)
    (exitStatus : Option Nat) (now : Nat) : StepResult :=
  let s1 := { s with containers := (lhmUpdate s.containers taskId
              (fun c => { c with checker := none, healthChecker := none })) }
  let shapeOk := match exitStatus with
    | none => true
    | some st => wifexited st || wifsignaled st
  if !shapeOk then { err := some CheckId.waitStatusShape, state := s1, actions := [] }
  else
    let taskState : TaskState := match exitStatus with
      | none => TaskState.TASK_FAILED
      | some st =>
        if wsucceeded st then TaskState.TASK_FINISHED
        else if container.killing then TaskState.TASK_KILLED
        else TaskState.TASK_FAILED
    let message : Option String := exitStatus.map (fun st => "Command " ++ wstringify st)
    match createTaskStatus s1 now taskId taskState none message with
    | Except.error e => { err := some e, state := s1, actions := [] }
    | Except.ok (status0, s2) =>
      let status := if s2.unhealthy then { status0 with healthy := some false } else status0
      let r := forward s2 status
      if r.err.isSome then r
      else
        let s3 := r.state
        if !lhmContains s3.containers taskId then
          { err := some CheckId.waitedErase, state := s3, actions := r.actions }
        else
          let s4 := { s3 with containers := lhmErase s3.containers taskId }
          if s4.containers.isEmpty then
            { err := none, state := s4, actions := r.actions ++ [Action.shutdownNow] }
          else if s4.shuttingDown then { err := none, state := s4, actions := r.actions }
          else if container.killingTaskGroup then
            { err := none, state := s4, actions := r.actions }
          else if taskState = TaskState.TASK_FAILED || taskState = TaskState.TASK_KILLED then
            killTaskGroupLoop container.taskGroup container.taskInfo.taskId now s4 r.actions
          else { err := none, state := s4, actions := r.actions }

/-- The outcome of the `WAIT_NESTED_CONTAINER` future delivered to `waited`:
either not ready (failed or discarded), or an HTTP response with its code
and, for 200 responses, the wire-level optional `exit_status` field of the
deserialized body. -/
inductive WaitOutcome
  | notReady
  | response (code : Nat) (exitStatus : Option Nat)
deriving DecidableEq

/-- The assignment `Option<int> status = ...exit_status();` in `waited`: the
proto2 getter returns the field's value, or its default 0 when the field is
unset, and the stout `Option<int>` converting constructor wraps that int, so
the resulting option is always `some`; wire-level absence of the field is
collapsed to exit status 0 here. -/
def exitStatusOption (field : Option Nat) : Option Nat :=
  some (field.getD 0)

/-- `DefaultExecutor::waited`: fenced by `connectionId`; asserts subscribed, a
known task, and a stored wait connection; retries on a not-ready response or
503, shuts down on any other non-200, and handles a 200 terminally. -/
def waited (s : ExecState) (cid taskId : Nat) (resp : WaitOutcome) (now : Nat) : StepResult :=
  if s.connectionId ≠ some cid then { err := none, state := s, actions := [] }
  else if s.state ≠ ConnState.SUBSCRIBED then
    { err := some CheckId.waitedSubscribed, state := s, actions := [] }
  else
    match lhmGet s.containers taskId with
    | none => { err := some CheckId.waitedContains, state := s, actions := [] }
    | some container =>
      if container.waiting.isNone then
        { err := some CheckId.waitedWaitingSome, state := s, actions := [] }
      else
        match resp with
        | WaitOutcome.notReady => waitedRetry s cid taskId container
        | WaitOutcome.response code exitStatus =>
          if code == 503 then waitedRetry s cid taskId container
          else if code != 200 then { err := none, state := s, actions := [Action.shutdownNow] }
          else waitedTerminal s container taskId (exitStatusOption exitStatus) now

/-- `DefaultExecutor::_retry`: fenced by `connectionId`; asserts subscribed,
a present `connectionId` and a known task; on a failed connection attempt,
delay 1 s and retry the connection; on success, delay 1 s and re-issue the
wait call. -/
def _retry (s : ExecState) (connReady : Bool) (cid taskId : Nat) : StepResult :=
  if s.connectionId ≠ some cid then { err := none, state := s, actions := [] }
  else if s.state ≠ ConnState.SUBSCRIBED then
    { err := some CheckId.retrySubscribed, state := s, actions := [] }
  else if s.connectionId.isNone then
    { err := some CheckId.retryConnectionId, state := s, actions := [] }
  else if !lhmContains s.containers taskId then
    { err := some CheckId.retryContains, state := s, actions := [] }
  else if !connReady then
    { err := none, state := s, actions := [Action.delayThenRetry 1 taskId] }
  else { err := none, state := s, actions := [Action.delayThenWait 1 taskId] }

/-- `DefaultExecutor::__wait`: fenced by `connectionId`; asserts subscribed,
a known task and no stored wait connection; stash the connection and send
`WAIT_NESTED_CONTAINER`. -/
def __wait (s : ExecState) (cid conn taskId : Nat) : StepResult :=
  if s.connectionId ≠ some cid then { err := none, state := s, actions := [] }
  else if s.state ≠ ConnState.SUBSCRIBED then
    { err := some CheckId.waitSubscribed, state := s, actions := [] }
  else
    match lhmGet s.containers taskId with
    | none => { err := some CheckId.waitContains, state := s, actions := [] }
    | some c =>
      if c.waiting.isSome then
        { err := some CheckId.waitWaitingNone, state := s, actions := [] }
      else
        { err := none
          state := { s with containers := (lhmUpdate s.containers taskId
                      (fun c0 => { c0 with waiting := some conn })) }
          actions := [Action.sendWait c.containerId] }

/-- `DefaultExecutor::wait`: asserts subscribed, launched, and a present
`connectionId`; opens one agent connection per task to wait on. -/
def wait (s : ExecState) (taskIds : List Nat) : StepResult :=
  if s.state ≠ ConnState.SUBSCRIBED then
    { err := some CheckId.waitSubscribed, state := s, actions := [] }
  else if !s.launched then { err := some CheckId.waitLaunched, state := s, actions := [] }
  else if s.connectionId.isNone then
    { err := some CheckId.waitConnectionId, state := s, actions := [] }
  else { err := none, state := s, actions := [Action.connectWaitGroup taskIds] }

/-- `DefaultExecutor::launchGroup`: asserts subscribed, latches `launched`,
and opens the launch connection to the agent; the task group itself is only
consumed by the deferred `_launchGroup` continuation. -/
def launchGroup (s : ExecState) (_taskGroup : List TaskInfo) : StepResult :=
  if s.state ≠ ConnState.SUBSCRIBED then
    { err := some CheckId.launchGroupSubscribed, state := s, actions := [] }
  else
    { err := none
      state := { s with launched := true }
      actions := [Action.connectForLaunch] }

/-- The per-task loop of `DefaultExecutor::_launchGroup`: allocate a fresh
container id per task and post one `LAUNCH_NESTED_CONTAINER` call (the call's
command, container, sandbox volumes and the `MESOS_CONTAINER_IP` variable are
built from the task and are opaque to the claims). -/
def launchNestedCalls (s : ExecState) (tasks : List TaskInfo) :
    ExecState × List Nat × List Action :=
  match tasks with
  | [] => (s, [], [])
  | t :: rest =>
    let cidNew := s.nextUuid
    let s1 := { s with nextUuid := s.nextUuid + 1 }
    let (s2, cids, acts) := launchNestedCalls s1 rest
    (s2, cidNew :: cids, Action.launchNested cidNew t.taskId :: acts)

/-- `DefaultExecutor::_launchGroup`: if shutting down, log and return; if the
connection is not ready, `_shutdown`; if the executor left `SUBSCRIBED`,
`_shutdown`; otherwise (asserting a present `executorContainerId`) issue the
pipelined `LAUNCH_NESTED_CONTAINER` calls. -/
def _launchGroup (s : ExecState) (taskGroup : List TaskInfo) (connReady : Bool) : StepResult :=
  if s.shuttingDown then { err := none, state := s, actions := [] }
  else if !connReady then { err := none, state := s, actions := [Action.shutdownNow] }
  else if s.state = ConnState.DISCONNECTED || s.state = ConnState.CONNECTED then
    { err := none, state := s, actions := [Action.shutdownNow] }
  else if s.executorContainerId.isNone then
    { err := some CheckId.launchExecutorContainerId, state := s, actions := [] }
  else
    let (s1, _cids, acts) := launchNestedCalls s taskGroup
    { err := none, state := s1, actions := acts }

/-- The container-insertion loop of `DefaultExecutor::__launchGroup`: insert
a fresh `Container` record per task (checker construction is modelled as
succeeding: the check/health-check engines are external) and create the
sandbox symlink. -/
def launchInsertLoop (s : ExecState) (taskGroup : List TaskInfo)
    (pairs : List (Nat × TaskInfo)) : ExecState × List Action :=
  match pairs with
  | [] => (s, [])
  | (cid, task) :: rest =>
    let cont : Container :=
      { containerId := cid
        taskInfo := task
        taskGroup := taskGroup
        lastTaskStatus := none
        checker := if task.check.isSome then some { paused := false } else none
        healthChecker := if task.healthCheck then some { paused := false } else none
        waiting := none
        acknowledged := false
        killing := false
        killingTaskGroup := false }
    let s1 := { s with containers := lhmPut s.containers task.taskId cont }
    let (s2, acts) := launchInsertLoop s1 taskGroup rest
    (s2, Action.symlinkTask task.taskId cid :: acts)

/-- The `TASK_RUNNING` loop of `DefaultExecutor::__launchGroup`: create and
forward one `TASK_RUNNING` status per task of the group, in order. -/
def forwardRunningLoop (s : ExecState) (tasks : List TaskInfo) (now : Nat) : StepResult :=
  match tasks with
  | [] => { err := none, state := s, actions := [] }
  | t :: rest =>
    match createTaskStatus s now t.taskId TaskState.TASK_RUNNING none none with
    | Except.error e => { err := some e, state := s, actions := [] }
    | Except.ok (status, s1) =>
      let r := forward s1 status
      if r.err.isSome then r
      else
        let r2 := forwardRunningLoop r.state rest now
        { err := r2.err, state := r2.state, actions := r.actions ++ r2.actions }

/-- `DefaultExecutor::__launchGroup`: if shutting down, log and return; if
the collected responses are not ready or any is not 200 OK, `_shutdown`; if
the executor left `SUBSCRIBED`, `_shutdown`; otherwise insert the container
records, forward `TASK_RUNNING` for every task, and start waiting on all of
them. -/
def __launchGroup (s : ExecState) (taskGroup : List TaskInfo) (containerIds : List Nat)
    (responses : Option (List Nat)) (now : Nat) : StepResult :=
  if s.shuttingDown then { err := none, state := s, actions := [] }
  else
    match responses with
    | none => { err := none, state := s, actions := [Action.shutdownNow] }
    | some codes =>
      if codes.any (fun c => c != 200) then
        { err := none, state := s, actions := [Action.shutdownNow] }
      else if s.state = ConnState.DISCONNECTED || s.state = ConnState.CONNECTED then
        { err := none, state := s, actions := [Action.shutdownNow] }
      else if !s.launched then { err := some CheckId.launchLaunched, state := s, actions := [] }
      else if containerIds.length ≠ taskGroup.length then
        { err := some CheckId.launchSizes, state := s, actions := [] }
      else
        let (s1, acts1) := launchInsertLoop s taskGroup (containerIds.zip taskGroup)
        let r := forwardRunningLoop s1 taskGroup now
        if r.err.isSome then { err := r.err, state := r.state, actions := acts1 ++ r.actions }
        else
          let r2 := wait r.state (taskGroup.map (fun t => t.taskId))
          { err := r2.err, state := r2.state, actions := acts1 ++ r.actions ++ r2.actions }

/-- `protobuf::createTaskStatus(status, uuid, timestamp, ...)` from
`common/protobuf_utils.hpp` (missing from src/). Modelled from the spec:
layered updates start from the previous task status to preserve attachments,
get a fresh UUID and timestamp, and optionally override the reason, the
`healthy` flag and the check status. -/
def layeredTaskStatus (last : TaskStatus) (uuid now : Nat) (reason : Option Reason)
    (healthy : Option Bool) (checkStatus : Option CheckStatusInfo) : TaskStatus :=
  { last with
    uuid := uuid
    timestamp := now
    reason := if reason.isSome then reason else last.reason
    healthy := if healthy.isSome then healthy else last.healthy
    checkStatus := if checkStatus.isSome then checkStatus else last.checkStatus }

/-- `DefaultExecutor::taskCheckUpdated`: drop the callback if the task is no
longer active or its checker has been cleared; otherwise (asserting a
previous status exists) forward a layered check status update. There is no
connection-state guard. -/
def taskCheckUpdated (s : ExecState) (taskId : Nat) (checkStatus : CheckStatusInfo)
    (now : Nat) : StepResult :=
  match lhmGet s.containers taskId with
  | none => { err := none, state := s, actions := [] }
  | some c =>
    if c.checker.isNone then { err := none, state := s, actions := [] }
    else
      match c.lastTaskStatus with
      | none => { err := some CheckId.checkLastStatus, state := s, actions := [] }
      | some last =>
        let status := layeredTaskStatus last s.nextUuid now
          (some Reason.REASON_TASK_CHECK_STATUS_UPDATED) none (some checkStatus)
        forward { s with nextUuid := s.nextUuid + 1 } status

/-- A `TaskHealthStatus` callback payload. -/
structure TaskHealthStatus where
  taskId : Nat
  healthy : Bool
  killTask : Bool
deriving DecidableEq

/-- `DefaultExecutor::taskHealthUpdated`: drop the callback while
`DISCONNECTED`, or if the task is no longer active, or its health checker has
been cleared; otherwise forward a layered health update and, when
`kill_task` is set, latch `unhealthy` and kill the task. -/
def taskHealthUpdated (s : ExecState) (h : TaskHealthStatus) (now : Nat) : StepResult :=
  if s.state = ConnState.DISCONNECTED then { err := none, state := s, actions := [] }
  else
    match lhmGet s.containers h.taskId with
    | none => { err := none, state := s, actions := [] }
    | some c =>
      if c.healthChecker.isNone then { err := none, state := s, actions := [] }
      else
        match c.lastTaskStatus with
        | none => { err := some CheckId.healthLastStatus, state := s, actions := [] }
        | some last =>
          let status := layeredTaskStatus last s.nextUuid now
            (some Reason.REASON_TASK_HEALTH_CHECK_STATUS_UPDATED) (some h.healthy) none
          let r := forward { s with nextUuid := s.nextUuid + 1 } status
          if r.err.isSome then r
          else if h.killTask then
            let s1 := { r.state with unhealthy := true }
            let r2 := killTask s1 h.taskId none now
            { err := r2.err, state := r2.state, actions := r.actions ++ r2.actions }
          else r

/-- Extract the message of the status update forwarded as a handler's first
action, when there is one. -/
def headForwardMessage (r : StepResult) : Option (Option String) :=
  match r.actions.head? with
  | some (Action.forwardUpdate st) => some st.message
  | _ => none

/-- Extract the task state of the status update forwarded as a handler's
first action, when there is one. -/
def headForwardState (r : StepResult) : Option TaskState :=
  match r.actions.head? with
  | some (Action.forwardUpdate st) => some st.state
  | _ => none

/-- Example fixture: first task of a two-task group. -/
def exTaskA : TaskInfo :=
  { taskId := 1, killPolicy := none, check := none, healthCheck := false }

/-- Example fixture: second task of a two-task group. -/
def exTaskB : TaskInfo :=
  { taskId := 2, killPolicy := none, check := none, healthCheck := false }

/-- Example fixture: the two-task group. -/
def exGroup : List TaskInfo := [exTaskA, exTaskB]

/-- Example fixture: live container of the first task, with an open wait
connection. -/
def exContA : Container :=
  { containerId := 11
    taskInfo := exTaskA
    taskGroup := exGroup
    lastTaskStatus := none
    checker := none
    healthChecker := none
    waiting := some 5
    acknowledged := false
    killing := false
    killingTaskGroup := false }

/-- Example fixture: live container of the second task. -/
def exContB : Container :=
  { containerId := 22
    taskInfo := exTaskB
    taskGroup := exGroup
    lastTaskStatus := none
    checker := none
    healthChecker := none
    waiting := some 6
    acknowledged := false
    killing := false
    killingTaskGroup := false }

/-- Example fixture: the second container with a kill already in progress
(as after a scheduler `KILL` for that task). -/
def exContBKilling : Container := { exContB with killing := true }

/-- Example fixture: subscribed executor supervising the two-task group. -/
def exState0 : ExecState :=
  { state := ConnState.SUBSCRIBED
    launched := true
    shuttingDown := false
    unhealthy := false
    frameworkInfo := some { taskKillingCapability := false }
    executorContainerId := some 99
    executorId := 7
    connectionId := some 70
    nextUuid := 100
    unacknowledgedUpdates := []
    containers := [(1, exContA), (2, exContB)] }

/-- Example fixture: the same executor, but the second task is already being
killed. -/
def exStateKilling : ExecState :=
  { exState0 with containers := [(1, exContA), (2, exContBKilling)] }

/-- Example fixture: the same executor after `shutdown()` latched
`shuttingDown`. -/
def exStateShutdown : ExecState := { exState0 with shuttingDown := true }

/-- Example fixture: a `TASK_RUNNING` status previously forwarded for the
first task. -/
def exRunningStatus : TaskStatus :=
  { taskId := 1
    state := TaskState.TASK_RUNNING
    uuid := 50
    timestamp := 10
    executorId := 7
    reason := none
    message := none
    healthy := none
    checkStatus := none
    containerId := some 11 }

/-- Example fixture: the first container with a live checker, a live health
checker and a recorded last status. -/
def exContChecked : Container :=
  { exContA with
    checker := some { paused := false }
    healthChecker := some { paused := false }
    lastTaskStatus := some exRunningStatus }

/-- Example fixture: a disconnected executor still holding the checked
container. -/
def exStateDisc : ExecState :=
  { exState0 with
    state := ConnState.DISCONNECTED
    connectionId := none
    containers := [(1, exContChecked), (2, exContB)] }

/-! Helper lemmas about the insertion-ordered map operations. -/

theorem lhmGet_update_self {α : Type} (m : List (Nat × α)) (k : Nat) (f : α → α) :
    lhmGet (lhmUpdate m k f) k = (lhmGet m k).map f := by
  induction m with
  | nil => rfl
  | cons p t ih =>
    by_cases h : p.1 = k
    · simp [lhmGet, lhmUpdate, List.find?_cons, h]
    · have hb : (p.1 == k) = false := by simp [h]
      simp only [lhmGet, lhmUpdate, List.map_cons, hb, Bool.false_eq_true, if_false,
        List.find?_cons, List.find?] at ih ⊢
      simpa [hb] using ih

theorem lhmContains_update_self {α : Type} (m : List (Nat × α)) (k : Nat) (f : α → α) :
    lhmContains (lhmUpdate m k f) k = lhmContains m k := by
  simp [lhmContains, lhmGet_update_self]

theorem pair_mem_eq_of_nodup_keys {α : Type} {m : List (Nat × α)} {p q : Nat × α}
    (hnd : (m.map Prod.fst).Nodup) (hp : p ∈ m) (hq : q ∈ m) (h : p.1 = q.1) : p = q := by
  induction m with
  | nil => cases hp
  | cons a t ih =>
    simp only [List.map_cons, List.nodup_cons] at hnd
    rcases List.mem_cons.mp hp with rfl | hp'
    · rcases List.mem_cons.mp hq with rfl | hq'
      · rfl
      · exact absurd (h ▸ List.mem_map_of_mem Prod.fst hq') hnd.1
    · rcases List.mem_cons.mp hq with rfl | hq'
      · exact absurd (h ▸ List.mem_map_of_mem Prod.fst hp') hnd.1
      · exact ih hnd.2 hp' hq'

/-- C7: on a stream disconnect, `disconnected` transitions to
`DISCONNECTED`, clears `connectionId`, nulls every container's wait
connection, pauses every present checker and health checker (without
dropping them), and leaves the task-id membership of `containers`
unchanged. -/
theorem disconnected_frame (s : ExecState) :
    (disconnected s).state = ConnState.DISCONNECTED ∧
    (disconnected s).connectionId = none ∧
    lhmKeys (disconnected s).containers = lhmKeys s.containers ∧
    ((disconnected s).containers.all (fun p =>
        p.2.waiting.isNone &&
        (match p.2.checker with | none => true | some ch => ch.paused) &&
        (match p.2.healthChecker with | none => true | some ch => ch.paused))) = true ∧
    (disconnected s).containers.map (fun p => (p.2.checker.isSome, p.2.healthChecker.isSome))
      = s.containers.map (fun p => (p.2.checker.isSome, p.2.healthChecker.isSome)) := by
  refine ⟨rfl, rfl, ?_, ?_, ?_⟩
  · simp [disconnected, lhmKeys, List.map_map, Function.comp]
  · rw [List.all_eq_true]
    intro p hp
    simp only [disconnected, List.mem_map] at hp
    obtain ⟨q, _, rfl⟩ := hp
    cases q.2.checker <;> cases q.2.healthChecker <;> simp [Option.map]
  · simp only [disconnected, List.map_map]
    refine List.map_congr_left ?_
    intro p _
    cases hc : p.2.checker <;> cases hh : p.2.healthChecker <;> simp [Function.comp, hc, hh]

/-- C9: `killTask` completes without an assertion when the executor is
shutting down (returning immediately with no state change and no actions);
with `shuttingDown` false and the executor in `CONNECTED` or `DISCONNECTED`,
its `CHECK_EQ(SUBSCRIBED, state)` fires and aborts instead of the event
being logged and ignored. -/
theorem killTask_subscribed_assertion (s : ExecState) (tid : Nat) (kp : Option KillPolicy)
    (now : Nat) :
    (s.shuttingDown = true →
      killTask s tid kp now = { err := none, state := s, actions := [] }) ∧
    (s.shuttingDown = false →
      (s.state = ConnState.CONNECTED ∨ s.state = ConnState.DISCONNECTED) →
      (killTask s tid kp now).err = some CheckId.killTaskSubscribed ∧
      (killTask s tid kp now).state = s ∧
      (killTask s tid kp now).actions = []) := by
  constructor
  · intro h
    simp [killTask, h]
  · intro h hstate
    have hne : ¬ s.state = ConnState.SUBSCRIBED := by
      rcases hstate with h1 | h1 <;> simp [h1]
    simp [killTask, h, hne]

/-- Witness for C9 at concrete inputs: a shutting-down executor ignores the
kill, and a merely-connected executor aborts on the subscription assertion. -/
theorem killTask_subscribed_assertion_witness :
    killTask exStateShutdown 1 none 0
        = { err := none, state := exStateShutdown, actions := [] } ∧
    (killTask { exState0 with state := ConnState.CONNECTED } 1 none 0).err
        = some CheckId.killTaskSubscribed := by
  refine ⟨(killTask_subscribed_assertion exStateShutdown 1 none 0).1 (by decide), ?_⟩
  exact ((killTask_subscribed_assertion { exState0 with state := ConnState.CONNECTED } 1 none 0).2
    (by decide) (Or.inl rfl)).1

/-- C5: `kill` schedules the SIGKILL escalation after exactly
`computeGracePeriodNanos`, which is the `KILL` event's kill-policy grace
period when that policy carries one, else the grace period of
`taskInfo.kill_policy` when set, else 3 s. -/
theorem kill_grace_period_selection (s : ExecState) (tid now : Nat) (c : Container)
    (kp : Option KillPolicy)
    (hstate : s.state = ConnState.SUBSCRIBED)
    (hc : lhmGet s.containers tid = some c)
    (hkilling : c.killing = false)
    (hconn : s.connectionId.isSome = true) :
    Action.scheduleEscalated c.containerId c.taskInfo.taskId
        (computeGracePeriodNanos kp c.taskInfo) ∈ (kill s tid kp now).actions ∧
    (∀ g, kp.bind (fun q => q.gracePeriodNanos) = some g →
      computeGracePeriodNanos kp c.taskInfo = g) ∧
    (kp.bind (fun q => q.gracePeriodNanos) = none →
      ∀ g, c.taskInfo.killPolicy.bind (fun q => q.gracePeriodNanos) = some g →
        computeGracePeriodNanos kp c.taskInfo = g) ∧
    (kp.bind (fun q => q.gracePeriodNanos) = none →
      c.taskInfo.killPolicy.bind (fun q => q.gracePeriodNanos) = none →
      computeGracePeriodNanos kp c.taskInfo = 3000000000) := by
  obtain ⟨cid, hcid⟩ := Option.isSome_iff_exists.mp hconn
  refine ⟨?_, ?_, ?_, ?_⟩
  · simp only [kill, hstate, ne_eq, not_true_eq_false, if_false, hc, hkilling,
      Bool.false_eq_true, hcid]
    cases hfi : s.frameworkInfo with
    | none => simp [hfi]
    | some fi =>
      by_cases hcap : fi.taskKillingCapability = true
      · simp only [hfi, hcap, if_true]
        split
        · simp
        · split <;> simp
      · simp [hfi, hcap]
  · intro g h
    simp [computeGracePeriodNanos, h]
  · intro h g h2
    simp [computeGracePeriodNanos, h, h2]
  · intro h h2
    simp [computeGracePeriodNanos, h, h2]

/-- Witness for C5 at concrete inputs: a `KILL` event carrying a 10 s grace
period schedules the escalation at 10 s even though the task has no policy
of its own. -/
theorem kill_grace_period_selection_witness :
    Action.scheduleEscalated exContB.containerId exContB.taskInfo.taskId
        (computeGracePeriodNanos (some { gracePeriodNanos := some 10000000000 })
          exContB.taskInfo)
      ∈ (kill exState0 2 (some { gracePeriodNanos := some 10000000000 }) 0).actions ∧
    computeGracePeriodNanos (some { gracePeriodNanos := some 10000000000 })
        exContB.taskInfo = 10000000000 := by
  have h := kill_grace_period_selection exState0 2 0 exContB
    (some { gracePeriodNanos := some 10000000000 }) rfl (by decide) (by decide) (by decide)
  exact ⟨h.1, h.2.1 10000000000 rfl⟩

/-- C6: a `SUBSCRIBE` built by `doReliableRegistration` carries all entries
of `unacknowledgedUpdates`, and carries the `taskInfo` of a live container
exactly when its `acknowledged` flag is false; in particular once a task's
update has been acknowledged, a `SUBSCRIBE` built afterwards does not carry
its `taskInfo`. Assumes the map invariant that containers are keyed by their
task id. -/
theorem subscribe_replay_characterisation (s : ExecState)
    (hstate : s.state = ConnState.CONNECTED)
    (hkey : ∀ p ∈ s.containers, (p.2 : Container).taskInfo.taskId = p.1)
    (hnodup : (s.containers.map Prod.fst).Nodup) :
    doReliableRegistration s =
      [Action.sendSubscribe (buildSubscribe s), Action.delaySubscribe 1] ∧
    (buildSubscribe s).unackUpdates = s.unacknowledgedUpdates ∧
    (∀ p ∈ s.containers,
      ((p.2 : Container).taskInfo ∈ (buildSubscribe s).unackTasks ↔
        p.2.acknowledged = false)) := by
  refine ⟨by simp [doReliableRegistration, hstate], rfl, ?_⟩
  intro p hp
  constructor
  · intro hmem
    obtain ⟨q, hqf, hq2⟩ := List.mem_map.mp hmem
    have hq := List.mem_filter.mp hqf
    have hkq : q.1 = p.1 := by
      have h1 := hkey q hq.1
      have h2 := hkey p hp
      rw [← h1, ← h2, hq2]
    have : q = p := pair_mem_eq_of_nodup_keys hnodup hq.1 hp hkq
    subst this
    simpa using hq.2
  · intro hack
    refine List.mem_map_of_mem (fun q => q.2.taskInfo) (List.mem_filter.mpr ⟨hp, ?_⟩)
    show (!p.2.acknowledged) = true
    rw [hack]
    rfl

/-- Witness for C6 at a concrete state: with the first task unacknowledged
and the second acknowledged, the built `SUBSCRIBE` carries the first task's
`taskInfo` and not the second's. -/
theorem subscribe_replay_characterisation_witness :
    exTaskA ∈ (buildSubscribe { exState0 with
        state := ConnState.CONNECTED
        containers := [(1, exContA), (2, { exContB with acknowledged := true })] }).unackTasks ∧
    exTaskB ∉ (buildSubscribe { exState0 with
        state := ConnState.CONNECTED
        containers := [(1, exContA), (2, { exContB with acknowledged := true })] }).unackTasks := by
  have h := subscribe_replay_characterisation
    { exState0 with
      state := ConnState.CONNECTED
      containers := [(1, exContA), (2, { exContB with acknowledged := true })] }
    rfl (by decide) (by decide)
  constructor
  · exact (h.2.2 (1, exContA) (by decide)).mpr (by decide)
  · intro hmem
    have := (h.2.2 (2, { exContB with acknowledged := true }) (by decide)).mp hmem
    simp at this

/-- C10: a check callback through `taskCheckUpdated` for a live task with a
present checker and a recorded last status forwards a layered check update
regardless of the connection state (the function has no state guard, so this
holds in particular while `DISCONNECTED`), whereas a health callback through
`taskHealthUpdated` is dropped whenever the state is `DISCONNECTED`. -/
theorem check_forwarded_health_dropped_when_disconnected (s : ExecState) (tid now : Nat)
    (c : Container) (cs : CheckStatusInfo) (h : TaskHealthStatus) (last : TaskStatus)
    (hc : lhmGet s.containers tid = some c)
    (hch : c.checker.isSome = true)
    (hlast : c.lastTaskStatus = some last)
    (hlid : last.taskId = tid) :
    ((taskCheckUpdated s tid cs now).err = none ∧
     (taskCheckUpdated s tid cs now).actions =
       [Action.forwardUpdate (layeredTaskStatus last s.nextUuid now
          (some Reason.REASON_TASK_CHECK_STATUS_UPDATED) none (some cs))]) ∧
    (s.state = ConnState.DISCONNECTED →
      taskHealthUpdated s h now = { err := none, state := s, actions := [] }) := by
  constructor
  · obtain ⟨ch, hch'⟩ := Option.isSome_iff_exists.mp hch
    have hcont : lhmContains s.containers (layeredTaskStatus last s.nextUuid now
        (some Reason.REASON_TASK_CHECK_STATUS_UPDATED) none (some cs)).taskId = true := by
      simp [layeredTaskStatus, hlid, lhmContains, hc]
    simp [taskCheckUpdated, hc, hch', hlast, forward, hcont]
  · intro hd
    simp [taskHealthUpdated, hd]

/-- Witness for C10 at a concrete disconnected state: the check callback
still forwards an update while the health callback is dropped. -/
theorem check_forwarded_health_dropped_when_disconnected_witness :
    (taskCheckUpdated exStateDisc 1 { ty := CheckType.COMMAND, data := 3 } 20).actions =
      [Action.forwardUpdate (layeredTaskStatus exRunningStatus exStateDisc.nextUuid 20
        (some Reason.REASON_TASK_CHECK_STATUS_UPDATED) none
        (some { ty := CheckType.COMMAND, data := 3 }))] ∧
    taskHealthUpdated exStateDisc { taskId := 1, healthy := false, killTask := true } 20
      = { err := none, state := exStateDisc, actions := [] } := by
  have h := check_forwarded_health_dropped_when_disconnected exStateDisc 1 20 exContChecked
    { ty := CheckType.COMMAND, data := 3 }
    { taskId := 1, healthy := false, killTask := true }
    exRunningStatus (by decide) (by decide) (by decide) (by decide)
  exact ⟨h.1.2, h.2 rfl⟩

/-- C3 counterexample: with `shuttingDown` already latched, both launch
continuations return unchanged with no actions at all, so in particular they
do not initiate `_shutdown` as the claim states. -/
theorem launch_ignores_when_shutting_down :
    _launchGroup exStateShutdown exGroup true
        = { err := none, state := exStateShutdown, actions := [] } ∧
    Action.shutdownNow ∉ (_launchGroup exStateShutdown exGroup true).actions ∧
    __launchGroup exStateShutdown exGroup [31, 32] (some [200, 200]) 0
        = { err := none, state := exStateShutdown, actions := [] } ∧
    Action.shutdownNow ∉
      (__launchGroup exStateShutdown exGroup [31, 32] (some [200, 200]) 0).actions := by
  refine ⟨by decide, by decide, by decide, by decide⟩

/-- C3 (amended): when `shuttingDown` is set by the time the connection
completes or the launch responses arrive, `_launchGroup` and `__launchGroup`
ignore the launch and return without initiating `_shutdown`; `_shutdown` is
initiated (while not shutting down) when the connection is not ready, when
the responses are not ready or any is not 200 OK, or when the executor has
left `SUBSCRIBED`. -/
theorem launch_shutdown_guards (s : ExecState) (tg : List TaskInfo) (cids : List Nat)
    (codes : List Nat) (now : Nat) :
    (s.shuttingDown = true →
      _launchGroup s tg true = { err := none, state := s, actions := [] } ∧
      _launchGroup s tg false = { err := none, state := s, actions := [] } ∧
      __launchGroup s tg cids none now = { err := none, state := s, actions := [] } ∧
      __launchGroup s tg cids (some codes) now = { err := none, state := s, actions := [] }) ∧
    (s.shuttingDown = false →
      _launchGroup s tg false = { err := none, state := s, actions := [Action.shutdownNow] } ∧
      __launchGroup s tg cids none now
        = { err := none, state := s, actions := [Action.shutdownNow] }) ∧
    (s.shuttingDown = false → codes.any (fun c => c != 200) = true →
      __launchGroup s tg cids (some codes) now
        = { err := none, state := s, actions := [Action.shutdownNow] }) ∧
    (s.shuttingDown = false →
      (s.state = ConnState.DISCONNECTED ∨ s.state = ConnState.CONNECTED) →
      _launchGroup s tg true = { err := none, state := s, actions := [Action.shutdownNow] } ∧
      (codes.any (fun c => c != 200) = false →
        __launchGroup s tg cids (some codes) now
          = { err := none, state := s, actions := [Action.shutdownNow] })) := by
  refine ⟨?_, ?_, ?_, ?_⟩
  · intro h
    refine ⟨?_, ?_, ?_, ?_⟩ <;> simp [_launchGroup, __launchGroup, h]
  · intro h
    refine ⟨?_, ?_⟩ <;> simp [_launchGroup, __launchGroup, h]
  · intro h hcodes
    simp [__launchGroup, h, hcodes]
  · intro h hstate
    have hor : (s.state = ConnState.DISCONNECTED || s.state = ConnState.CONNECTED) = true := by
      rcases hstate with h1 | h1 <;> simp [h1]
    constructor
    · simp [_launchGroup, h, hor]
    · intro hcodes
      simp [__launchGroup, h, hcodes, hor]

/-- Witness for C3's amended claim at concrete inputs: a shutting-down
executor ignores the launch, a failed connection and a non-200 response both
trigger `_shutdown`. -/
theorem launch_shutdown_guards_witness :
    _launchGroup exStateShutdown exGroup true
        = { err := none, state := exStateShutdown, actions := [] } ∧
    _launchGroup exState0 exGroup false
        = { err := none, state := exState0, actions := [Action.shutdownNow] } ∧
    __launchGroup exState0 exGroup [31, 32] (some [200, 500]) 0
        = { err := none, state := exState0, actions := [Action.shutdownNow] } := by
  refine ⟨((launch_shutdown_guards exStateShutdown exGroup [31, 32] [200, 200] 0).1 rfl).1,
    ((launch_shutdown_guards exState0 exGroup [31, 32] [200, 200] 0).2.1 rfl).1,
    (launch_shutdown_guards exState0 exGroup [31, 32] [200, 500] 0).2.2.1 rfl (by decide)⟩

/-- C4 counterexample: on a 503 (and likewise a failed wait response) the
executor's only action is an immediate connection attempt to the agent — no
1 s delay precedes re-establishing the connection, contrary to the claim. -/
theorem wait_retry_immediate_reconnect :
    (waited exState0 70 1 (WaitOutcome.response 503 none) 0).actions
        = [Action.connectForWait 1] ∧
    Action.delayThenRetry 1 1 ∉ (waited exState0 70 1 (WaitOutcome.response 503 none) 0).actions ∧
    Action.delayThenWait 1 1 ∉ (waited exState0 70 1 (WaitOutcome.response 503 none) 0).actions ∧
    (waited exState0 70 1 WaitOutcome.notReady 0).actions = [Action.connectForWait 1] := by
  refine ⟨by decide, by decide, by decide, by decide⟩

/-- C4 (amended): on a not-ready wait response or a 503, `waited` closes and
nulls the stored wait connection and immediately initiates re-establishing
the agent connection, emitting no status update; when the connection attempt
completes, `_retry` delays 1 s before re-issuing `WAIT_NESTED_CONTAINER`
(and on a failed attempt delays 1 s before retrying the connection). -/
theorem wait_retry_behaviour (s : ExecState) (cid tid now : Nat) (c : Container)
    (est : Option Nat)
    (hcid : s.connectionId = some cid)
    (hstate : s.state = ConnState.SUBSCRIBED)
    (hc : lhmGet s.containers tid = some c)
    (hw : c.waiting.isNone = false) :
    waited s cid tid WaitOutcome.notReady now =
      { err := none
        state := { s with containers := (lhmUpdate s.containers tid
            (fun c0 => { c0 with waiting := none })) }
        actions := [Action.connectForWait c.taskInfo.taskId] } ∧
    waited s cid tid (WaitOutcome.response 503 est) now =
      { err := none
        state := { s with containers := (lhmUpdate s.containers tid
            (fun c0 => { c0 with waiting := none })) }
        actions := [Action.connectForWait c.taskInfo.taskId] } ∧
    _retry s false cid tid = { err := none, state := s, actions := [Action.delayThenRetry 1 tid] } ∧
    _retry s true cid tid = { err := none, state := s, actions := [Action.delayThenWait 1 tid] } := by
  have hcont : lhmContains s.containers tid = true := by
    simp [lhmContains, hc]
  refine ⟨?_, ?_, ?_, ?_⟩
  · simp [waited, hcid, hstate, hc, hw, waitedRetry, retry]
  · simp [waited, hcid, hstate, hc, hw, waitedRetry, retry]
  · simp [_retry, hcid, hstate, hcont]
  · simp [_retry, hcid, hstate, hcont]

/-- Witness for C4's amended claim at concrete inputs. -/
theorem wait_retry_behaviour_witness :
    (waited exState0 70 1 WaitOutcome.notReady 0).actions = [Action.connectForWait 1] ∧
    _retry exState0 true 70 1
        = { err := none, state := exState0, actions := [Action.delayThenWait 1 1] } ∧
    _retry exState0 false 70 1
        = { err := none, state := exState0, actions := [Action.delayThenRetry 1 1] } := by
  have h := wait_retry_behaviour exState0 70 1 0 exContA none rfl rfl (by decide) (by decide)
  refine ⟨?_, h.2.2.2, h.2.2.1⟩
  rw [h.1]
  decide


/-! Helper lemmas locating the abort causes of the kill path, used to settle
the wait-status shape assertion and the terminal-status translation. -/

theorem forward_err_cases (s : ExecState) (st : TaskStatus) :
    (forward s st).err = none ∨ (forward s st).err = some CheckId.forwardContains := by
  simp only [forward]
  split
  · exact Or.inl rfl
  · exact Or.inr rfl

theorem createTaskStatus_err_cases (s : ExecState) (now tid : Nat) (ts : TaskState)
    (r : Option Reason) (m : Option String) (e : CheckId)
    (h : createTaskStatus s now tid ts r m = Except.error e) :
    e = CheckId.statusContains ∨ e = CheckId.statusUnknownCheckType := by
  unfold createTaskStatus at h
  split at h
  · injection h with h
    exact Or.inl h.symm
  · split at h
    · injection h with h
      exact Or.inr h.symm
    · cases h

theorem createTaskStatus_ok_of (s : ExecState) (now tid : Nat) (ts : TaskState)
    (r : Option Reason) (m : Option String) (c : Container)
    (hc : lhmGet s.containers tid = some c)
    (hct : c.taskInfo.check ≠ some CheckType.UNKNOWN) :
    createTaskStatus s now tid ts r m = Except.ok
      ({ taskId := tid
         state := ts
         uuid := s.nextUuid
         timestamp := now
         executorId := s.executorId
         reason := r
         message := m
         healthy := none
         checkStatus := c.taskInfo.check.map (fun t => { ty := t, data := 0 })
         containerId := some c.containerId },
       { s with nextUuid := s.nextUuid + 1 }) := by
  simp [createTaskStatus, hc, hct]

theorem kill_err_ne_shape (s : ExecState) (tid : Nat) (kp : Option KillPolicy) (now : Nat) :
    (kill s tid kp now).err ≠ some CheckId.waitStatusShape := by
  simp only [kill]
  split
  · simp
  · split
    · simp
    · split
      · simp
      · split
        · simp
        · split
          · simp
          · split
            · split
              · next e heq =>
                rcases createTaskStatus_err_cases _ _ _ _ _ _ e heq with rfl | rfl <;> simp
              · next status s2 heq =>
                split
                · rcases forward_err_cases s2 status with h | h <;> simp [h]
                · simp
            · simp

theorem killTaskGroupLoop_err_ne_shape (ts : List TaskInfo) (trig now : Nat) (s : ExecState)
    (acc : List Action) :
    (killTaskGroupLoop ts trig now s acc).err ≠ some CheckId.waitStatusShape := by
  induction ts generalizing s acc with
  | nil => simp [killTaskGroupLoop]
  | cons t rest ih =>
    simp only [killTaskGroupLoop]
    split
    · exact ih _ _
    · split
      · intro h
        exact kill_err_ne_shape _ _ _ _ (by simpa using h)
      · exact ih _ _

theorem killTaskGroupLoop_actions_prefix (ts : List TaskInfo) (trig now : Nat) (s : ExecState)
    (acc : List Action) :
    ∃ extra, (killTaskGroupLoop ts trig now s acc).actions = acc ++ extra := by
  induction ts generalizing s acc with
  | nil => exact ⟨[], by simp [killTaskGroupLoop]⟩
  | cons t rest ih =>
    simp only [killTaskGroupLoop]
    split
    · exact ih _ _
    · split
      · exact ⟨_, rfl⟩
      · obtain ⟨e2, he⟩ := ih _ _
        rw [he]
        exact ⟨_, List.append_assoc _ _ _⟩

theorem forward_err_ne_shape (s : ExecState) (st : TaskStatus) :
    (forward s st).err ≠ some CheckId.waitStatusShape := by
  rcases forward_err_cases s st with h | h <;> simp [h]

theorem taskStatus_healthy_ite (b : Bool) (st : TaskStatus) :
    (if b = true then { st with healthy := some false } else st)
      = { st with healthy := if b = true then some false else st.healthy } := by
  cases b <;> simp

theorem StepResult_ite_actions_prefix (p : Prop) [Decidable p] (x y : StepResult)
    (acc : List Action)
    (hx : ∃ r, x.actions = acc ++ r) (hy : ∃ r, y.actions = acc ++ r) :
    ∃ r, (if p then x else y).actions = acc ++ r := by
  by_cases h : p
  · simpa [h] using hx
  · simpa [h] using hy

theorem waitedTerminal_err_ne_shape (s : ExecState) (c : Container) (tid now stv : Nat)
    (hsh : (wifexited stv || wifsignaled stv) = true) :
    (waitedTerminal s c tid (some stv) now).err ≠ some CheckId.waitStatusShape := by
  simp only [waitedTerminal, hsh, Bool.not_true, Bool.false_eq_true, if_false,
    taskStatus_healthy_ite]
  split
  · next e heq =>
    rcases createTaskStatus_err_cases _ _ _ _ _ _ e heq with rfl | rfl <;> simp
  · next status s2 heq =>
    cases hu : s2.unhealthy <;> simp only [hu, Bool.false_eq_true, Bool.true_eq_false,
      if_false, if_true, reduceIte] <;>
    · repeat' split
      all_goals
        first
        | exact killTaskGroupLoop_err_ne_shape _ _ _ _ _
        | exact forward_err_ne_shape _ _
        | simp

theorem waitedTerminal_err_shape_iff (s : ExecState) (c : Container) (tid now stv : Nat) :
    ((waitedTerminal s c tid (some stv) now).err = some CheckId.waitStatusShape
      ↔ (wifexited stv || wifsignaled stv) = false) := by
  cases hsh : (wifexited stv || wifsignaled stv) with
  | false => simp [waitedTerminal, hsh]
  | true =>
    constructor
    · intro h
      exact absurd h (waitedTerminal_err_ne_shape s c tid now stv hsh)
    · intro h
      exact Bool.noConfusion h

theorem waitedTerminal_forwards (s : ExecState) (c : Container) (tid now : Nat)
    (est : Option Nat)
    (hc : lhmGet s.containers tid = some c)
    (hct : c.taskInfo.check ≠ some CheckType.UNKNOWN)
    (hshape : ∀ stv, est = some stv → (wifexited stv || wifsignaled stv) = true) :
    ∃ status rest,
      (waitedTerminal s c tid est now).actions = Action.forwardUpdate status :: rest ∧
      status.taskId = tid ∧
      status.state = (match est with
        | none => TaskState.TASK_FAILED
        | some stv =>
          if wsucceeded stv then TaskState.TASK_FINISHED
          else if c.killing then TaskState.TASK_KILLED
          else TaskState.TASK_FAILED) ∧
      status.message = est.map (fun stv => "Command " ++ wstringify stv) := by
  have hc1 : lhmGet (lhmUpdate s.containers tid
      (fun c0 => { c0 with checker := none, healthChecker := none })) tid
      = some { c with checker := none, healthChecker := none } := by
    rw [lhmGet_update_self, hc]
    rfl
  have hcont1 : lhmContains (lhmUpdate s.containers tid
      (fun c0 => { c0 with checker := none, healthChecker := none })) tid = true := by
    rw [lhmContains_update_self]
    simp [lhmContains, hc]
  have hcontAny : ∀ g : Container → Container,
      lhmContains (lhmUpdate (lhmUpdate s.containers tid
        (fun c0 => { c0 with checker := none, healthChecker := none })) tid g) tid = true := by
    intro g
    rw [lhmContains_update_self, lhmContains_update_self]
    simp [lhmContains, hc]
  cases est with
  | none =>
    have hcr := createTaskStatus_ok_of
      { s with containers := (lhmUpdate s.containers tid
          (fun c0 => { c0 with checker := none, healthChecker := none })) }
      now tid TaskState.TASK_FAILED none none
      { c with checker := none, healthChecker := none } hc1 hct
    have hpre : ∃ r, (waitedTerminal s c tid none now).actions =
        [Action.forwardUpdate
          { taskId := tid
            state := TaskState.TASK_FAILED
            uuid := s.nextUuid
            timestamp := now
            executorId := s.executorId
            reason := none
            message := none
            healthy := if s.unhealthy = true then some false else none
            checkStatus := c.taskInfo.check.map (fun t => { ty := t, data := 0 })
            containerId := some c.containerId }] ++ r := by
      cases hu : s.unhealthy <;>
      · simp only [waitedTerminal, Option.map_none', hcr]
        simp only [hu, forward, hcont1, hcontAny, Bool.not_true, Bool.false_eq_true,
          Bool.true_eq_false, if_false, if_true, reduceIte, Option.isSome_none]
        refine StepResult_ite_actions_prefix _ _ _ _ ?_ ?_
        · exact ⟨[Action.shutdownNow], rfl⟩
        refine StepResult_ite_actions_prefix _ _ _ _ ?_ ?_
        · exact ⟨[], rfl⟩
        refine StepResult_ite_actions_prefix _ _ _ _ ?_ ?_
        · exact ⟨[], rfl⟩
        exact killTaskGroupLoop_actions_prefix _ _ _ _ _
    obtain ⟨r, hr⟩ := hpre
    exact ⟨_, r, by simpa using hr, rfl, rfl, rfl⟩
  | some stv =>
    have hsh := hshape stv rfl
    have hcr := createTaskStatus_ok_of
      { s with containers := (lhmUpdate s.containers tid
          (fun c0 => { c0 with checker := none, healthChecker := none })) }
      now tid
      (if wsucceeded stv then TaskState.TASK_FINISHED
       else if c.killing then TaskState.TASK_KILLED
       else TaskState.TASK_FAILED)
      none (some ("Command " ++ wstringify stv))
      { c with checker := none, healthChecker := none } hc1 hct
    have hpre : ∃ r, (waitedTerminal s c tid (some stv) now).actions =
        [Action.forwardUpdate
          { taskId := tid
            state := if wsucceeded stv then TaskState.TASK_FINISHED
              else if c.killing then TaskState.TASK_KILLED
              else TaskState.TASK_FAILED
            uuid := s.nextUuid
            timestamp := now
            executorId := s.executorId
            reason := none
            message := some ("Command " ++ wstringify stv)
            healthy := if s.unhealthy = true then some false else none
            checkStatus := c.taskInfo.check.map (fun t => { ty := t, data := 0 })
            containerId := some c.containerId }] ++ r := by
      cases hu : s.unhealthy <;>
      · simp only [waitedTerminal, Option.map_some', hsh, Bool.not_true,
          Bool.false_eq_true, if_false, hcr]
        simp only [hu, forward, hcont1, hcontAny, Bool.not_true, Bool.false_eq_true,
          Bool.true_eq_false, if_false, if_true, reduceIte, Option.isSome_none]
        refine StepResult_ite_actions_prefix _ _ _ _ ?_ ?_
        · exact ⟨[Action.shutdownNow], rfl⟩
        refine StepResult_ite_actions_prefix _ _ _ _ ?_ ?_
        · exact ⟨[], rfl⟩
        refine StepResult_ite_actions_prefix _ _ _ _ ?_ ?_
        · exact ⟨[], rfl⟩
        refine StepResult_ite_actions_prefix _ _ _ _ ?_ ?_
        · exact killTaskGroupLoop_actions_prefix _ _ _ _ _
        exact ⟨[], rfl⟩
    obtain ⟨r, hr⟩ := hpre
    exact ⟨_, r, by simpa using hr, rfl, rfl, rfl⟩

/-- C2 counterexample: at a failed exit (wait status 256, exit code 1) the
forwarded message is "Command " followed by the stringified wait status, not
the bare stringified status; and for a 200 OK response with `exit_status`
absent, the protobuf getter collapse (the wire-level field reads as 0) makes
the executor forward `TASK_FINISHED` with message
"Command exited with status 0", not the claimed `TASK_FAILED` with no
message. -/
theorem waited_exit_status_claim_counterexample :
    headForwardMessage (waited exState0 70 1 (WaitOutcome.response 200 (some 256)) 0)
        = some (some ("Command " ++ wstringify 256)) ∧
    headForwardMessage (waited exState0 70 1 (WaitOutcome.response 200 (some 256)) 0)
        ≠ some (some (wstringify 256)) ∧
    headForwardState (waited exState0 70 1 (WaitOutcome.response 200 none) 0)
        = some TaskState.TASK_FINISHED ∧
    headForwardMessage (waited exState0 70 1 (WaitOutcome.response 200 none) 0)
        = some (some "Command exited with status 0") := by
  refine ⟨by decide, by decide, by decide, by decide⟩

/-- C2 (amended): for every 200 OK wait response the executor reads
`exit_status` through the protobuf getter, which yields 0 when the field is
absent, so the status is never treated as missing; with the read status of a
legal shape, a successful status (in particular an absent field, which reads
as a clean exit 0) yields `TASK_FINISHED`, an unsuccessful one with
`container.killing == true` yields `TASK_KILLED`, otherwise `TASK_FAILED`;
the message is "Command " followed by the platform's stringified wait
status, and the terminal update is the first action emitted. -/
theorem waited_exit_status_translation (s : ExecState) (cid tid now : Nat) (c : Container)
    (est : Option Nat)
    (hcid : s.connectionId = some cid)
    (hstate : s.state = ConnState.SUBSCRIBED)
    (hc : lhmGet s.containers tid = some c)
    (hw : c.waiting.isNone = false)
    (hct : c.taskInfo.check ≠ some CheckType.UNKNOWN)
    (hshape : (wifexited (est.getD 0) || wifsignaled (est.getD 0)) = true) :
    ∃ status rest,
      (waited s cid tid (WaitOutcome.response 200 est) now).actions
        = Action.forwardUpdate status :: rest ∧
      status.taskId = tid ∧
      status.message = some ("Command " ++ wstringify (est.getD 0)) ∧
      (wsucceeded (est.getD 0) = true → status.state = TaskState.TASK_FINISHED) ∧
      (wsucceeded (est.getD 0) = false → c.killing = true →
        status.state = TaskState.TASK_KILLED) ∧
      (wsucceeded (est.getD 0) = false → c.killing = false →
        status.state = TaskState.TASK_FAILED) ∧
      (est = none → status.state = TaskState.TASK_FINISHED ∧
        status.message = some ("Command " ++ wstringify 0)) := by
  have hred : waited s cid tid (WaitOutcome.response 200 est) now
      = waitedTerminal s c tid (some (est.getD 0)) now := by
    simp [waited, hcid, hstate, hc, hw, exitStatusOption]
  obtain ⟨status, rest, hact, hid, hst, hmsg⟩ :=
    waitedTerminal_forwards s c tid now (some (est.getD 0)) hc hct
      (fun stv h => by cases h; exact hshape)
  have hmsg' : status.message = some ("Command " ++ wstringify (est.getD 0)) := by
    simpa using hmsg
  refine ⟨status, rest, by rw [hred]; exact hact, hid, hmsg', ?_, ?_, ?_, ?_⟩
  · intro h1
    simpa [h1] using hst
  · intro h1 h2
    simpa [h1, h2] using hst
  · intro h1 h2
    simpa [h1, h2] using hst
  · rintro rfl
    refine ⟨?_, by simpa using hmsg'⟩
    simpa [show wsucceeded 0 = true by decide] using hst

/-- Witness for C2's amended claim at concrete inputs: a clean exit (wait
status 0) is forwarded as `TASK_FINISHED` with the prefixed message, and an
absent `exit_status` field likewise yields `TASK_FINISHED`. -/
theorem waited_exit_status_translation_witness :
    headForwardState (waited exState0 70 1 (WaitOutcome.response 200 (some 0)) 3)
        = some TaskState.TASK_FINISHED ∧
    headForwardMessage (waited exState0 70 1 (WaitOutcome.response 200 (some 0)) 3)
        = some (some ("Command " ++ wstringify 0)) ∧
    headForwardState (waited exState0 70 1 (WaitOutcome.response 200 none) 3)
        = some TaskState.TASK_FINISHED := by
  obtain ⟨st1, r1, hact1, _, hmsg1, hfin1, _, _, _⟩ :=
    waited_exit_status_translation exState0 70 1 3 exContA (some 0)
      rfl rfl (by decide) (by decide) (by decide) (by decide)
  obtain ⟨st2, r2, hact2, _, _, _, _, _, habs2⟩ :=
    waited_exit_status_translation exState0 70 1 3 exContA none
      rfl rfl (by decide) (by decide) (by decide) (by decide)
  refine ⟨?_, ?_, ?_⟩
  · simp [headForwardState, hact1, hfin1 (by decide)]
  · simp [headForwardMessage, hact1, hmsg1]
  · simp [headForwardState, hact2, (habs2 rfl).1]

/-- C8: reaching the 200-OK branch of `waited` with a present `exit_status`,
the wait-status shape assertion `CHECK(WIFEXITED || WIFSIGNALED)` fires
exactly when the status is of neither shape; when the status is a normal
exit or a termination by signal, that assertion never fires. -/
theorem wait_status_shape_assertion (s : ExecState) (cid tid now stv : Nat) (c : Container)
    (hcid : s.connectionId = some cid)
    (hstate : s.state = ConnState.SUBSCRIBED)
    (hc : lhmGet s.containers tid = some c)
    (hw : c.waiting.isNone = false) :
    ((waited s cid tid (WaitOutcome.response 200 (some stv)) now).err
        = some CheckId.waitStatusShape
      ↔ (wifexited stv || wifsignaled stv) = false) := by
  have hred : waited s cid tid (WaitOutcome.response 200 (some stv)) now
      = waitedTerminal s c tid (some stv) now := by
    simp [waited, hcid, hstate, hc, hw, exitStatusOption]
  rw [hred]
  exact waitedTerminal_err_shape_iff s c tid now stv

/-- Witness for C8 at concrete inputs: wait status 127 (neither exited nor
signaled) fires the assertion; wait status 0 (a normal exit) does not. -/
theorem wait_status_shape_assertion_witness :
    (waited exState0 70 1 (WaitOutcome.response 200 (some 127)) 5).err
        = some CheckId.waitStatusShape ∧
    (waited exState0 70 1 (WaitOutcome.response 200 (some 0)) 5).err
        ≠ some CheckId.waitStatusShape := by
  constructor
  · exact (wait_status_shape_assertion exState0 70 1 5 127 exContA rfl rfl
      (by decide) (by decide)).mpr (by decide)
  · intro h
    exact absurd ((wait_status_shape_assertion exState0 70 1 5 0 exContA rfl rfl
      (by decide) (by decide)).mp h) (by decide)

/-- C1 (code bug): in the fate-sharing cascade of `waited`, a live sibling
that is already `killing` is not skipped: the loop marks it and invokes
`kill` on it, and `kill`'s own `CHECK(!container->killing)` fires, aborting
the executor. At a state where task 2 is already being killed and task 1
exits with code 1 (wait status 256), `waited` aborts at that assertion after
forwarding the terminal `TASK_FAILED`, and no SIGTERM is ever sent for the
sibling container. -/
theorem fateSharing_kills_already_killing_sibling :
    (waited exStateKilling 70 1 (WaitOutcome.response 200 (some 256)) 0).err
        = some CheckId.killNotKilling ∧
    Action.killNested 22 SIGTERM ∉
      (waited exStateKilling 70 1 (WaitOutcome.response 200 (some 256)) 0).actions := by
  refine ⟨by decide, by decide⟩

end Mesos
